import Mathlib

/-!
Verification development for the pixel repository: the pixel-set
merge/export engine, the submission flow's background import callback,
the archive/import exception taxonomy, the XLSX template generation and
download, and the cached-aggregate update on pixel sets.

Measurement values (Python floats that the export engine only carries
around, never computes with) are embedded as rationals; an absent
measurement is `Option.none`.
-/

namespace Pixel

/-- First-occurrence, order-preserving deduplication, as performed by the
export engine on its input sequence of pixel sets (Python's identity-based
dedup that keeps the first occurrence of each element). -/
def dedupFirst {α : Type} [DecidableEq α] : List α → List α
  | [] => []
  | a :: l => a :: (dedupFirst l).filter (fun b => b != a)

/-- A pixel as seen by the export engine: the omics unit reference
identifier, the omics unit description, the measured value (required) and
the optional quality score (`src/apps/core/models.py`, `Pixel`). -/
structure PixelData where
  omicsUnit : String
  description : String
  value : Rat
  qualityScore : Option Rat
deriving DecidableEq

/-- A pixel set as seen by the export engine: its short id
(`get_short_uuid`), its description and its pixels
(`src/apps/core/models.py`, `PixelSet`). -/
structure PixelSet where
  shortId : String
  description : String
  pixels : List PixelData
deriving DecidableEq

/-- One entry of the `pixelsets` list of the exported `meta.yaml`
document. -/
structure MetaEntry where
  pixelset : String
  description : String
  columns : List Nat
deriving DecidableEq

/-- One data row of the exported `pixels.csv`: the omics unit reference
identifier, the omics unit description, and one (value, quality score)
pair of cells per deduplicated pixel set; `none` is the distinct absent
marker (rendered as NaN downstream, never as zero). -/
structure CsvRow where
  omicsUnit : String
  description : String
  cells : List (Option Rat × Option Rat)
deriving DecidableEq

/-- The two-member export archive content: the `meta.yaml` pixelsets list
and the `pixels.csv` header row and data rows. -/
structure PixelSetArchive where
  metaPixelsets : List MetaEntry
  csvHeader : List String
  csvRows : List CsvRow
deriving DecidableEq

/-- The bare (no archive) single-pixel-set CSV export. -/
structure PixelsCsv where
  header : List String
  rows : List (String × Rat × Option Rat)
deriving DecidableEq

/-- Modelled from the spec: the omics-unit filter of the export engine in
`apps/explorer/utils.py` (not under `src/`); an empty filter list selects
every pixel, a non-empty one restricts to the listed reference
identifiers. -/
def filterPixels (omicsUnits : List String) (l : List PixelData) : List PixelData :=
  if omicsUnits.isEmpty then l else l.filter (fun p => omicsUnits.contains p.omicsUnit)

/-- Modelled from the spec: the two per-pixel-set column labels of the
merged matrix, built by `apps/explorer/utils.py` (not under `src/`); the
labels are `Value <shortId>` and `QS <shortId>`, space-separated, as
pinned by `src/apps/explorer/tests/utils/test_export.py`. -/
def pixelSetColumns (s : PixelSet) : List String :=
  ["Value " ++ s.shortId, "QS " ++ s.shortId]

/-- Modelled from the spec: the `pixels.csv` header row, `Omics Unit` and
`Description` followed by the two columns of each deduplicated pixel
set. -/
def exportHeader (sets : List PixelSet) : List String :=
  "Omics Unit" :: "Description" :: (sets.map pixelSetColumns).flatten

/-- Modelled from the spec: the `meta.yaml` pixelsets entries, one per
deduplicated pixel set in first-occurrence order; the entry of the set at
0-based position `i` carries column indices `[2*i+1, 2*i+2]`, as pinned by
`src/apps/explorer/tests/utils/test_export.py` (the enumerate-style index
starts right after the `Description` column of the merged matrix, whose
key column `Omics Unit` is not counted). -/
def exportMetaAux (i : Nat) : List PixelSet → List MetaEntry
  | [] => []
  | s :: t =>
    { pixelset := s.shortId, description := s.description,
      columns := [2 * i + 1, 2 * i + 2] } :: exportMetaAux (i + 1) t

/-- Modelled from the spec: the (value, quality score) pair of cells a
pixel set contributes to the merged row of a given omics unit; a set that
does not contain the omics unit contributes the absent marker
`(none, none)`, never zero. -/
def setPair (omicsUnits : List String) (u : String) (s : PixelSet) :
    Option Rat × Option Rat :=
  match (filterPixels omicsUnits s.pixels).find? (fun p => p.omicsUnit == u) with
  | some p => (some p.value, p.qualityScore)
  | none => (none, none)

/-- Modelled from the spec: all pixels contributed by the deduplicated
pixel sets, in set order, after the omics-unit filter. -/
def allFilteredPixels (sets : List PixelSet) (omicsUnits : List String) :
    List PixelData :=
  (sets.map (fun s => filterPixels omicsUnits s.pixels)).flatten

/-- Modelled from the spec: the row keys of the merged matrix, one per
distinct omics unit reference identifier appearing in any input set, in
first-occurrence order. -/
def rowIdentifiers (sets : List PixelSet) (omicsUnits : List String) :
    List String :=
  dedupFirst ((allFilteredPixels sets omicsUnits).map (fun p => p.omicsUnit))

/-- Modelled from the spec: the description of a merged row, taken from
the first contributing pixel (first writer wins). -/
def rowDescription (sets : List PixelSet) (omicsUnits : List String)
    (u : String) : String :=
  (((allFilteredPixels sets omicsUnits).find? (fun p => p.omicsUnit == u)).map
    (fun p => p.description)).getD ""

/-- Modelled from the spec: one merged row, with one pair of cells per
deduplicated pixel set. -/
def buildRow (sets : List PixelSet) (omicsUnits : List String)
    (u : String) : CsvRow :=
  { omicsUnit := u, description := rowDescription sets omicsUnits u,
    cells := sets.map (setPair omicsUnits u) }

/-- Modelled from the spec: `export_pixelsets` of `apps/explorer/utils.py`
(not under `src/`); deduplicates the input sequence keeping
first-occurrence order, then performs the outer join of the retained
pixel sets on the omics unit reference identifier, producing the
`meta.yaml` pixelsets list and the `pixels.csv` matrix. Total: an empty
input is valid and raises no error. Concrete shapes (column labels, meta
column indices) follow `src/apps/explorer/tests/utils/test_export.py`. -/
def export_pixelsets (pixelSets : List PixelSet)
    (omicsUnits : List String) : PixelSetArchive :=
  let d := dedupFirst pixelSets
  { metaPixelsets := exportMetaAux 0 d
    csvHeader := exportHeader d
    csvRows := (rowIdentifiers d omicsUnits).map (buildRow d omicsUnits) }

/-- Modelled from the spec: `export_pixels` of `apps/explorer/utils.py`
(not under `src/`); the bare single-pixel-set CSV export with header
`Omics Unit,Value,QS`, one row per (optionally filtered) pixel. -/
def export_pixels (s : PixelSet) (omicsUnits : List String) : PixelsCsv :=
  { header := ["Omics Unit", "Value", "QS"]
    rows := (filterPixels omicsUnits s.pixels).map
      (fun p => (p.omicsUnit, p.value, p.qualityScore)) }

/-- Viewflow task status values used by the import callback of
`src/apps/submission/flows.py`: the task is started when the background
unit of work begins, and the callback moves it to done (via
`activation.callback()`) or to error. -/
inductive TaskStatus
  | started
  | done
  | error
deriving DecidableEq

/-- Externally observable state touched by the background import callback
of `src/apps/submission/flows.py` (`perform_archive_importation`): the
viewflow task record, the submission process `imported` flag, and whether
the background thread's database connections were closed. -/
structure ImportState where
  taskStatus : TaskStatus
  taskComments : String
  taskFinishedSet : Bool
  imported : Bool
  connectionsClosed : Bool
deriving DecidableEq

/-- The background `importation_callback` of
`src/apps/submission/flows.py` as one atomic step on the observable
state: given the background future's exception (if any), either record
the failure on the task (error status, exception message as comments,
finished timestamp), close the connections and re-raise — leaving
`imported` untouched — or set `process.imported`, run
`activation.callback()` (task done, finished) and close the connections.
The second component is the exception the callback re-raises. -/
def importation_callback (futureException : Option String)
    (s : ImportState) : ImportState × Option String :=
  match futureException with
  | some e =>
      ({ s with taskStatus := TaskStatus.error, taskComments := e,
                taskFinishedSet := true, connectionsClosed := true }, some e)
  | none =>
      ({ s with imported := true, taskStatus := TaskStatus.done,
                taskFinishedSet := true, connectionsClosed := true }, none)

/-- The whole background unit of work of `perform_archive_importation`:
`archive.save` either succeeds or raises (its exception becoming the
future's exception), after which `importation_callback` runs exactly
once. -/
def runImportJob (saveResult : Except String Unit) (s : ImportState) :
    ImportState × Option String :=
  importation_callback
    (match saveResult with
     | Except.error e => some e
     | Except.ok _ => none) s

/-- The exception classes declared in `src/apps/submission/exceptions.py`
(plus Python's built-in `Exception` root). -/
inductive ExcClass
  | exception
  | archiveError
  | invalidArchiveFormatError
  | metaFileRequiredError
  | metaFileFormatError
  | metaFileParsingError
  | pixelSetParserError
  | pixelSetParserSaveError
deriving DecidableEq

/-- The direct base class of each exception class, exactly as declared in
`src/apps/submission/exceptions.py`. -/
def superclass : ExcClass → Option ExcClass
  | ExcClass.exception => none
  | ExcClass.archiveError => some ExcClass.exception
  | ExcClass.invalidArchiveFormatError => some ExcClass.archiveError
  | ExcClass.metaFileRequiredError => some ExcClass.archiveError
  | ExcClass.metaFileFormatError => some ExcClass.archiveError
  | ExcClass.metaFileParsingError => some ExcClass.archiveError
  | ExcClass.pixelSetParserError => some ExcClass.exception
  | ExcClass.pixelSetParserSaveError => some ExcClass.pixelSetParserError

/-- The chain of strict ancestors of an exception class, obtained by
iterating `superclass` (the fuel bounds the chain length; 8 classes make
any chain shorter than 8). -/
def strictAncestors : Nat → ExcClass → List ExcClass
  | 0, _ => []
  | n + 1, c =>
    match superclass c with
    | none => []
    | some p => p :: strictAncestors n p

/-- Subclass relation between exception classes (reflexive, and following
`superclass` chains), the shallow embedding of Python's
`issubclass`. -/
def isSubclassOf (c d : ExcClass) : Prop :=
  c = d ∨ d ∈ strictAncestors 8 c

instance (c d : ExcClass) : Decidable (isSubclassOf c d) :=
  inferInstanceAs (Decidable (c = d ∨ d ∈ strictAncestors 8 c))

/-- The spreadsheet library environment: the only library input the spec
allows the stable template content to depend on is the library version
("no spreadsheet-library version drift"). -/
structure SpreadsheetLib where
  libVersion : String
deriving DecidableEq

/-- Worksheet title of the generated submission template, pinned by
`src/apps/submission/tests/test_views.py` (`test_generated_file`). -/
def pixelImportWorksheetTitle : String := "Import information for Pixel"

/-- Modelled from the spec: the stable cell content of the blank template
produced by `generate_template` in `apps/submission/io/xlsx.py` (not
under `src/`); it depends only on the code and the spreadsheet library
version. -/
def templateSheetContent (lib : SpreadsheetLib) : String :=
  "Pixel import sheet (" ++ lib.libVersion ++ ")"

/-- Modelled from the spec: the stable version tag embedded in the
generated template (a document-property field), compared against a
process's recorded `template_version` by import validation. -/
def templateVersionTag : String := "pixel-template-1"

/-- Modelled from the spec: a generated XLSX submission template as
produced by `generate_template` in `apps/submission/io/xlsx.py` (not
under `src/`): a fixed worksheet, stable content, the embedded version
tag, plus the volatile creation-timestamp metadata the spreadsheet
library adds. -/
structure GeneratedTemplate where
  worksheetTitle : String
  sheetContent : String
  versionTag : String
  createdAt : Nat
deriving DecidableEq

/-- Modelled from the spec: `generate_template` of
`apps/submission/io/xlsx.py` (not under `src/`); produces the blank
template from the code's fixed content, the library version and the
clock. -/
def generate_template (lib : SpreadsheetLib) (timestamp : Nat) :
    GeneratedTemplate :=
  { worksheetTitle := pixelImportWorksheetTitle
    sheetContent := templateSheetContent lib
    versionTag := templateVersionTag
    createdAt := timestamp }

/-- Modelled from the spec: the byte content of the generated template
that enters the checksum; per the spec the volatile spreadsheet-library
metadata (the timestamp) is excluded from the digest so that audit-trail
determinism holds. -/
def stableTemplateBytes (t : GeneratedTemplate) : String :=
  t.worksheetTitle ++ "|" ++ t.sheetContent ++ "|" ++ t.versionTag

/-- Modelled from the spec: the SHA-256 hex digest of the generated
template's digestable bytes; the digest function itself (`hashlib`) is an
external collaborator passed as a parameter. -/
def templateChecksum (sha256Hex : String → String)
    (t : GeneratedTemplate) : String :=
  sha256Hex (stableTemplateBytes t)

/-- Response produced by the template download view, together with the
two strings it persists on the submission process
(`src/apps/submission/models.py`, `template_checksum` and
`template_version`). -/
structure TemplateDownloadResponse where
  filename : String
  contentType : String
  templateChecksum : String
  templateVersion : String
deriving DecidableEq

/-- The standard OOXML spreadsheet MIME type, pinned by
`src/apps/submission/tests/test_views.py` (`test_post`). -/
def xlsxContentType : String :=
  "application/vnd.openxmlformats-officedocument.spreadsheetml.sheet"

/-- Stem of the generated template filename (`meta.xlsx`), pinned by
`src/apps/submission/tests/test_views.py`. -/
def templateStem : String := "meta"

/-- Modelled from the spec: the `DownloadXLSXTemplateView` post handler of
`apps/submission/views.py` (not under `src/`); generates the template,
persists its checksum and version on the submission process, and serves
it as an attachment named `<stem>-<first 8 hex chars of checksum>.xlsx`
with the OOXML spreadsheet content type. -/
def downloadXlsxTemplate (sha256Hex : String → String)
    (lib : SpreadsheetLib) (timestamp : Nat) : TemplateDownloadResponse :=
  let t := generate_template lib timestamp
  let checksum := templateChecksum sha256Hex t
  { filename := templateStem ++ "-" ++ checksum.take 8 ++ ".xlsx"
    contentType := xlsxContentType
    templateChecksum := checksum
    templateVersion := t.versionTag }

/-- The stored columns of a `PixelSet` row
(`src/apps/core/models.py`). -/
structure PixelSetRecord where
  id : String
  pixels_file : String
  description : String
  analysis : String
  cached_species : List String
  cached_omics_areas : List String
  cached_omics_unit_types : List String
deriving DecidableEq

/-- The related rows a `PixelSet` aggregates over: per related pixel the
species name (`omics_unit.strain.species.name`) and the omics unit type
name (`omics_unit.type.name`), and per experiment of the analysis the
omics area name (`src/apps/core/models.py`). -/
structure PixelSetContext where
  pixelSpeciesNames : List String
  pixelOmicsUnitTypeNames : List String
  analysisOmicsAreaNames : List String
deriving DecidableEq

/-- `PixelSet.get_species` of `src/apps/core/models.py`: the set of
species names over the set's pixels (a Python `set`, embedded as a
deduplicated list). -/
def get_species (ctx : PixelSetContext) : List String :=
  dedupFirst ctx.pixelSpeciesNames

/-- `PixelSet.get_omics_unit_types` of `src/apps/core/models.py`. -/
def get_omics_unit_types (ctx : PixelSetContext) : List String :=
  dedupFirst ctx.pixelOmicsUnitTypeNames

/-- `PixelSet.get_omics_areas` of `src/apps/core/models.py`. -/
def get_omics_areas (ctx : PixelSetContext) : List String :=
  dedupFirst ctx.analysisOmicsAreaNames

/-- Django's `save(update_fields=...)` on a `PixelSet` row: only the named
columns are written from the in-memory instance to the stored row; every
other stored column keeps its stored value (the primary key is never
rewritten). -/
def saveRecord (stored mem : PixelSetRecord) (updateFields : List String) :
    PixelSetRecord :=
  { id := stored.id
    pixels_file :=
      if updateFields.contains "pixels_file" then mem.pixels_file
      else stored.pixels_file
    description :=
      if updateFields.contains "description" then mem.description
      else stored.description
    analysis :=
      if updateFields.contains "analysis" then mem.analysis
      else stored.analysis
    cached_species :=
      if updateFields.contains "cached_species" then mem.cached_species
      else stored.cached_species
    cached_omics_areas :=
      if updateFields.contains "cached_omics_areas" then mem.cached_omics_areas
      else stored.cached_omics_areas
    cached_omics_unit_types :=
      if updateFields.contains "cached_omics_unit_types" then
        mem.cached_omics_unit_types
      else stored.cached_omics_unit_types }

/-- `PixelSet.update_cached_fields` of `src/apps/core/models.py`:
recompute the three cached aggregates on the in-memory instance, then
`save(update_fields=['cached_species', 'cached_omics_unit_types',
'cached_omics_areas'])`. Returns the updated in-memory instance and the
updated stored row. -/
def update_cached_fields (ctx : PixelSetContext)
    (self stored : PixelSetRecord) : PixelSetRecord × PixelSetRecord :=
  let updated :=
    { self with cached_species := get_species ctx
                cached_omics_unit_types := get_omics_unit_types ctx
                cached_omics_areas := get_omics_areas ctx }
  (updated,
   saveRecord stored updated
     ["cached_species", "cached_omics_unit_types", "cached_omics_areas"])

/-- Concrete pixel used to instantiate the absent-cells theorem. -/
def wPixA : PixelData :=
  { omicsUnit := "geneX", description := "gene X desc", value := 3,
    qualityScore := some 1 }

/-- Concrete pixel set A (contains `geneX`). -/
def wSetA : PixelSet :=
  { shortId := "aaa", description := "set A", pixels := [wPixA] }

/-- Concrete pixel set B (does not contain `geneX`). -/
def wSetB : PixelSet :=
  { shortId := "bbb", description := "set B", pixels := [] }

/-- Pixels of the first set of the three-set scenario (three pixels with
pairwise distinct omics units, unique to that set). -/
def m3p1 : PixelData :=
  { omicsUnit := "g1", description := "d1", value := 1, qualityScore := some 1 }

def m3p2 : PixelData :=
  { omicsUnit := "g2", description := "d2", value := 2, qualityScore := some 2 }

def m3p3 : PixelData :=
  { omicsUnit := "g3", description := "d3", value := 3, qualityScore := some 3 }

/-- First set of the three-set scenario: owns three pixels. -/
def m3s1 : PixelSet :=
  { shortId := "idA", description := "set one", pixels := [m3p1, m3p2, m3p3] }

/-- Second set of the three-set scenario: empty. -/
def m3s2 : PixelSet :=
  { shortId := "idB", description := "set two", pixels := [] }

/-- Third set of the three-set scenario: empty. -/
def m3s3 : PixelSet :=
  { shortId := "idC", description := "set three", pixels := [] }

/-- Concrete pixel set for the header-label counterexample. -/
def cexSet : PixelSet :=
  { shortId := "abc", description := "cex", pixels := [] }

/-- Concrete import state before the background callback runs. -/
def wImportState : ImportState :=
  { taskStatus := TaskStatus.started, taskComments := "",
    taskFinishedSet := false, imported := false,
    connectionsClosed := false }

/-- Concrete pixel set for the meta-columns counterexample. -/
def cexSet3 : PixelSet :=
  { shortId := "xyz", description := "cex3", pixels := [] }

/-- Membership is invariant under first-occurrence deduplication. -/
theorem mem_dedupFirst {α : Type} [DecidableEq α] (x : α) (l : List α) :
    x ∈ dedupFirst l ↔ x ∈ l := by
  induction l with
  | nil => simp [dedupFirst]
  | cons a t ih =>
    by_cases hx : x = a
    · simp [dedupFirst, hx]
    · simp [dedupFirst, List.mem_filter, ih, hx]

/-- First-occurrence deduplication produces a duplicate-free list. -/
theorem dedupFirst_nodup {α : Type} [DecidableEq α] (l : List α) :
    (dedupFirst l).Nodup := by
  induction l with
  | nil => simp [dedupFirst]
  | cons a t ih =>
    refine List.nodup_cons.mpr ⟨?_, ih.filter _⟩
    intro hmem
    have h2 := (List.mem_filter.mp hmem).2
    simp at h2

/-- A duplicate-free list is a fixed point of first-occurrence
deduplication. -/
theorem dedupFirst_eq_self {α : Type} [DecidableEq α] {l : List α}
    (h : l.Nodup) : dedupFirst l = l := by
  induction l with
  | nil => rfl
  | cons a t ih =>
    rcases List.nodup_cons.mp h with ⟨ha, ht⟩
    show a :: (dedupFirst t).filter (fun b => b != a) = a :: t
    rw [ih ht]
    congr 1
    apply List.filter_eq_self.mpr
    intro b hb
    simp only [bne_iff_ne, ne_eq, decide_eq_true_eq]
    exact fun hba => ha (hba ▸ hb)

/-- First-occurrence deduplication is idempotent. -/
theorem dedupFirst_idem {α : Type} [DecidableEq α] (l : List α) :
    dedupFirst (dedupFirst l) = dedupFirst l :=
  dedupFirst_eq_self (dedupFirst_nodup l)

/-- One meta entry is produced per deduplicated pixel set. -/
theorem exportMetaAux_length (l : List PixelSet) (j : Nat) :
    (exportMetaAux j l).length = l.length := by
  induction l generalizing j with
  | nil => rfl
  | cons s t ih => simp [exportMetaAux, ih]

/-- The flattened per-set column labels contribute two columns per
set. -/
theorem flatten_cols_length (l : List PixelSet) :
    ((l.map pixelSetColumns).flatten).length = 2 * l.length := by
  induction l with
  | nil => rfl
  | cons s t ih =>
    simp [pixelSetColumns, ih]
    omega

/-- Shape of the meta entry at position `i`: the entry of the `i`-th
deduplicated pixel set, with column indices `[2*i+1, 2*i+2]`. -/
theorem exportMetaAux_get? (l : List PixelSet) (j i : Nat) :
    (exportMetaAux j l).get? i =
      (l.get? i).map (fun s =>
        { pixelset := s.shortId, description := s.description,
          columns := [2 * (j + i) + 1, 2 * (j + i) + 2] }) := by
  induction l generalizing j i with
  | nil => simp [exportMetaAux]
  | cons s t ih =>
    cases i with
    | zero => simp [exportMetaAux]
    | succ k =>
      have e : j + (k + 1) = (j + 1) + k := by omega
      simp only [exportMetaAux, List.get?_cons_succ, ih (j + 1) k, e]

/-- The two columns of the `i`-th pixel set sit at positions `2*i` and
`2*i+1` of the flattened per-set column labels. -/
theorem flatten_cols_get? (l : List PixelSet) :
    ∀ (i : Nat) (h : i < l.length),
      ((l.map pixelSetColumns).flatten).get? (2 * i) =
        some ("Value " ++ (l.get ⟨i, h⟩).shortId) ∧
      ((l.map pixelSetColumns).flatten).get? (2 * i + 1) =
        some ("QS " ++ (l.get ⟨i, h⟩).shortId) := by
  induction l with
  | nil => intro i h; exact absurd h (Nat.not_lt_zero i)
  | cons s t ih =>
    intro i h
    cases i with
    | zero => simp [pixelSetColumns]
    | succ j =>
      have hj : j < t.length := Nat.lt_of_succ_lt_succ h
      have e1 : 2 * (j + 1) = 2 * j + 2 := by omega
      have e2 : 2 * (j + 1) + 1 = 2 * j + 1 + 2 := by omega
      simp only [List.map_cons, List.flatten_cons, pixelSetColumns,
        List.cons_append, List.nil_append, e1, e2]
      have hr :
          ∀ (x y : String) (R : List String) (n : Nat),
            (x :: y :: R).get? (n + 2) = R.get? n := fun _ _ _ _ => rfl
      rw [hr, hr]
      simpa using ih j hj

/-- C1: for every export of pixel sets and every omics unit reference
identifier present (after the optional filter) in an input set `A` but
absent from an input set `B`, the merged matrix has a row for that
identifier, and that row carries the distinct absent marker
`(none, none)` in both of `B`'s cells (its Value cell and its QS cell) —
by construction of `setPair` this marker is `Option.none`, never the
number zero and never the empty string. -/
theorem export_absent_set_cells_null :
    ∀ (pixelSets : List PixelSet) (omicsUnits : List String)
      (A B : PixelSet) (u : String),
      A ∈ pixelSets → B ∈ pixelSets →
      (∃ p ∈ filterPixels omicsUnits A.pixels, p.omicsUnit = u) →
      (∀ p ∈ filterPixels omicsUnits B.pixels, p.omicsUnit ≠ u) →
      ∃ r ∈ (export_pixelsets pixelSets omicsUnits).csvRows,
        r.omicsUnit = u ∧
        ∀ i, (dedupFirst pixelSets).get? i = some B →
          r.cells.get? i = some (none, none) := by
  intro ps f A B u hA hB hpres habs
  rcases hpres with ⟨p, hp, hpu⟩
  have hAd : A ∈ dedupFirst ps := (mem_dedupFirst A ps).mpr hA
  have hu : u ∈ rowIdentifiers (dedupFirst ps) f := by
    unfold rowIdentifiers allFilteredPixels
    refine (mem_dedupFirst _ _).mpr ?_
    refine List.mem_map.mpr ⟨p, ?_, hpu⟩
    refine List.mem_flatten.mpr ⟨filterPixels f A.pixels, ?_, hp⟩
    exact List.mem_map.mpr ⟨A, hAd, rfl⟩
  refine ⟨buildRow (dedupFirst ps) f u, ?_, rfl, ?_⟩
  · show buildRow (dedupFirst ps) f u ∈
      (rowIdentifiers (dedupFirst ps) f).map (buildRow (dedupFirst ps) f)
    exact List.mem_map.mpr ⟨u, hu, rfl⟩
  · intro i hi
    show ((dedupFirst ps).map (setPair f u)).get? i = some (none, none)
    rw [List.get?_map, hi]
    have hn : (filterPixels f B.pixels).find?
        (fun q => q.omicsUnit == u) = none := by
      apply List.find?_eq_none.mpr
      intro x hx
      simpa using habs x hx
    simp [setPair, hn]

/-- C2: exporting a sequence of pixel sets that contains duplicates
produces output identical to exporting the deduplicated sequence
(first-occurrence order); the archive carries exactly one meta entry and
exactly one pair of value/quality-score header columns per distinct
set. -/
theorem export_duplicate_pixelsets_dedup :
    ∀ (pixelSets : List PixelSet) (omicsUnits : List String),
      export_pixelsets pixelSets omicsUnits =
        export_pixelsets (dedupFirst pixelSets) omicsUnits ∧
      (export_pixelsets pixelSets omicsUnits).metaPixelsets.length =
        (dedupFirst pixelSets).length ∧
      (export_pixelsets pixelSets omicsUnits).csvHeader.length =
        2 + 2 * (dedupFirst pixelSets).length := by
  intro ps f
  refine ⟨?_, ?_, ?_⟩
  · show export_pixelsets ps f = export_pixelsets (dedupFirst ps) f
    unfold export_pixelsets
    rw [dedupFirst_idem]
  · exact exportMetaAux_length (dedupFirst ps) 0
  · show (exportHeader (dedupFirst ps)).length = _
    unfold exportHeader
    rw [List.length_cons, List.length_cons, flatten_cols_length]
    omega

/-- C3 counterexample: for the export of one pixel set with short id
`xyz`, the meta entry's `columns` value is `[1, 2]`, yet the actual
0-based positions of that set's two columns in the `pixels.csv` header
are 2 and 3 (position 1 holds `Description`), so the claimed equality
with the header positions fails at this input. -/
theorem export_meta_columns_cex :
    (export_pixelsets [cexSet3] []).metaPixelsets.map
        (fun m => m.columns) = [[1, 2]] ∧
    (export_pixelsets [cexSet3] []).csvHeader.get? 1 =
      some "Description" ∧
    (export_pixelsets [cexSet3] []).csvHeader.get? 2 =
      some "Value xyz" ∧
    (export_pixelsets [cexSet3] []).csvHeader.get? 3 = some "QS xyz" ∧
    ("Description" : String) ≠ "Value xyz" ∧
    ([1, 2] : List Nat) ≠ [2, 3] := by decide

/-- C3 (amended): each pixel set's `columns` entry in the meta holds the
0-based positions of the set's two columns counted among the merged
matrix's data columns, i.e. with the `Description` column at position 0
and the leading `Omics Unit` key column not counted — one less than the
physical 0-based header positions, which are `2*i+2` and `2*i+3` for the
`i`-th deduplicated set — listed in deduplicated request order; in
particular the three-set scenario (set 1 owning 3 pixels unique to it,
sets 2 and 3 empty) yields meta columns `[1,2],[3,4],[5,6]`, a
`pixels.csv` with 3 data rows, and the absent marker in every cell of
sets 2 and 3. -/
theorem export_meta_columns_amended :
    (∀ (pixelSets : List PixelSet) (omicsUnits : List String) (i : Nat)
       (h : i < (dedupFirst pixelSets).length),
       (export_pixelsets pixelSets omicsUnits).metaPixelsets.get? i =
         some { pixelset := ((dedupFirst pixelSets).get ⟨i, h⟩).shortId,
                description :=
                  ((dedupFirst pixelSets).get ⟨i, h⟩).description,
                columns := [2 * i + 1, 2 * i + 2] } ∧
       (export_pixelsets pixelSets omicsUnits).csvHeader.get? (2 * i + 2) =
         some ("Value " ++ ((dedupFirst pixelSets).get ⟨i, h⟩).shortId) ∧
       (export_pixelsets pixelSets omicsUnits).csvHeader.get? (2 * i + 3) =
         some ("QS " ++ ((dedupFirst pixelSets).get ⟨i, h⟩).shortId)) ∧
    ((export_pixelsets [m3s1, m3s2, m3s3] []).metaPixelsets.map
        (fun m => m.columns) = [[1, 2], [3, 4], [5, 6]] ∧
     (export_pixelsets [m3s1, m3s2, m3s3] []).csvRows.length = 3 ∧
     ∀ r ∈ (export_pixelsets [m3s1, m3s2, m3s3] []).csvRows,
       r.cells.get? 1 = some (none, none) ∧
       r.cells.get? 2 = some (none, none)) := by
  refine ⟨?_, by decide⟩
  intro ps f i h
  refine ⟨?_, ?_, ?_⟩
  · show (exportMetaAux 0 (dedupFirst ps)).get? i = _
    rw [exportMetaAux_get?, List.get?_eq_get h]
    simp
  · show ((dedupFirst ps).map pixelSetColumns).flatten.get? (2 * i) = _
    exact (flatten_cols_get? (dedupFirst ps) i h).1
  · show ((dedupFirst ps).map pixelSetColumns).flatten.get? (2 * i + 1) = _
    exact (flatten_cols_get? (dedupFirst ps) i h).2

/-- C3 witness: the amended statement instantiated at the three-set
scenario and position 0. -/
theorem export_meta_columns_amended_app :
    0 < (dedupFirst [m3s1, m3s2, m3s3]).length ∧
    ((export_pixelsets [m3s1, m3s2, m3s3] []).metaPixelsets.get? 0 =
      some { pixelset := "idA", description := "set one",
             columns := [1, 2] } ∧
     (export_pixelsets [m3s1, m3s2, m3s3] []).csvHeader.get? 2 =
       some "Value idA" ∧
     (export_pixelsets [m3s1, m3s2, m3s3] []).csvHeader.get? 3 =
       some "QS idA") :=
  ⟨by decide,
   export_meta_columns_amended.1 [m3s1, m3s2, m3s3] [] 0 (by decide)⟩

/-- C4 counterexample: for the export of one pixel set with short id
`abc`, the `pixels.csv` header's per-set columns are `Value abc` and
`QS abc` (space-separated); the underscore-separated labels the claim
states do not occur in the header. -/
theorem export_header_underscore_cex :
    (export_pixelsets [cexSet] []).csvHeader =
      ["Omics Unit", "Description", "Value abc", "QS abc"] ∧
    "Value_abc" ∉ (export_pixelsets [cexSet] []).csvHeader ∧
    "QS_abc" ∉ (export_pixelsets [cexSet] []).csvHeader := by decide

/-- C4 (amended): for every archive export the `pixels.csv` header row is
`Omics Unit,Description` followed by one `Value <id>` column and one
`QS <id>` column per deduplicated pixel set (`<id>` the set's short id,
separated by a space rather than an underscore), while the
single-pixel-set no-archive export variant produces a bare CSV whose
header is exactly `Omics Unit,Value,QS`. -/
theorem export_header_shape :
    (∀ (pixelSets : List PixelSet) (omicsUnits : List String),
       (export_pixelsets pixelSets omicsUnits).csvHeader =
         "Omics Unit" :: "Description" ::
           ((dedupFirst pixelSets).map pixelSetColumns).flatten) ∧
    (∀ (s : PixelSet) (omicsUnits : List String),
       (export_pixels s omicsUnits).header =
         ["Omics Unit", "Value", "QS"]) :=
  ⟨fun _ _ => rfl, fun _ _ => rfl⟩

/-- C5: exporting zero pixel sets is valid (the export function is total,
no error is raised): the meta's `pixelsets` list is empty and the
`pixels.csv` matrix consists of the `Omics Unit` and `Description` header
columns only, with zero data rows. -/
theorem export_zero_pixelsets :
    ∀ omicsUnits : List String,
      export_pixelsets [] omicsUnits =
        { metaPixelsets := [],
          csvHeader := ["Omics Unit", "Description"], csvRows := [] } :=
  fun _ => rfl

/-- C6: in the background import callback, the submission process's
`imported` flag is set to true exactly when the background unit of work
completed without exception; if the import raised, the task is put in
error status with the exception message as comments (and a finished
timestamp), the exception is re-raised, and `imported` keeps its previous
value — the callback is a single atomic step, so no intermediate imported
state is observable. -/
theorem importation_callback_imported_flag :
    ∀ (saveResult : Except String Unit) (s : ImportState),
      (∀ e, saveResult = Except.error e →
         (runImportJob saveResult s).1.imported = s.imported ∧
         (runImportJob saveResult s).1.taskStatus = TaskStatus.error ∧
         (runImportJob saveResult s).1.taskComments = e ∧
         (runImportJob saveResult s).1.taskFinishedSet = true ∧
         (runImportJob saveResult s).2 = some e) ∧
      (saveResult = Except.ok () →
         (runImportJob saveResult s).1.imported = true ∧
         (runImportJob saveResult s).1.taskStatus = TaskStatus.done ∧
         (runImportJob saveResult s).2 = none) := by
  intro r s
  cases r with
  | error e =>
    refine ⟨?_, ?_⟩
    · intro e2 he
      cases he
      exact ⟨rfl, rfl, rfl, rfl, rfl⟩
    · intro h
      exact Except.noConfusion h
  | ok u =>
    cases u
    refine ⟨?_, ?_⟩
    · intro e2 he
      exact Except.noConfusion he
    · intro _
      exact ⟨rfl, rfl, rfl⟩

/-- C6 witness: the callback run on a failed import (`boom`) starting
from a fresh submission state. -/
theorem importation_callback_imported_flag_app :
    (runImportJob (Except.error "boom") wImportState).1.imported = false ∧
    (runImportJob (Except.error "boom") wImportState).1.taskStatus =
      TaskStatus.error ∧
    (runImportJob (Except.error "boom") wImportState).1.taskComments =
      "boom" ∧
    (runImportJob (Except.error "boom") wImportState).1.taskFinishedSet =
      true ∧
    (runImportJob (Except.error "boom") wImportState).2 = some "boom" :=
  (importation_callback_imported_flag
    (Except.error "boom") wImportState).1 "boom" rfl

/-- C7: the four archive-domain error classes are pairwise distinct and
each directly extends the single common supertype `ArchiveError`;
`PixelSetParserSaveError` is a subclass of `PixelSetParserError` (hence
every save error is a generic import error), and no archive-domain error
is an import-domain error nor conversely. -/
theorem exception_hierarchy_taxonomy :
    ([ExcClass.invalidArchiveFormatError, ExcClass.metaFileRequiredError,
      ExcClass.metaFileFormatError, ExcClass.metaFileParsingError].Nodup) ∧
    (∀ c ∈ [ExcClass.invalidArchiveFormatError,
            ExcClass.metaFileRequiredError, ExcClass.metaFileFormatError,
            ExcClass.metaFileParsingError],
       superclass c = some ExcClass.archiveError ∧
       isSubclassOf c ExcClass.archiveError ∧
       ¬ isSubclassOf c ExcClass.pixelSetParserError) ∧
    isSubclassOf ExcClass.pixelSetParserSaveError
      ExcClass.pixelSetParserError ∧
    isSubclassOf ExcClass.pixelSetParserSaveError ExcClass.exception ∧
    ¬ isSubclassOf ExcClass.pixelSetParserError ExcClass.archiveError ∧
    ¬ isSubclassOf ExcClass.archiveError ExcClass.pixelSetParserError := by
  decide

/-- C8: template generation is deterministic — two runs with the same
code and the same spreadsheet library version produce the same checksum
(the volatile creation timestamp is excluded from the digested bytes) and
the same embedded version tag. -/
theorem generate_template_deterministic :
    ∀ (sha256Hex : String → String) (lib : SpreadsheetLib) (t1 t2 : Nat),
      templateChecksum sha256Hex (generate_template lib t1) =
        templateChecksum sha256Hex (generate_template lib t2) ∧
      (generate_template lib t1).versionTag =
        (generate_template lib t2).versionTag :=
  fun _ _ _ _ => ⟨rfl, rfl⟩

/-- C9: every generated template download serves an attachment named
`<stem>-<first 8 characters of the template's SHA-256 checksum>.xlsx`
with the standard OOXML spreadsheet MIME type, the checksum being the
digest persisted on the submission process together with the embedded
version tag. -/
theorem download_template_filename_content_type :
    ∀ (sha256Hex : String → String) (lib : SpreadsheetLib)
      (timestamp : Nat),
      (downloadXlsxTemplate sha256Hex lib timestamp).filename =
        templateStem ++ "-" ++
          ((downloadXlsxTemplate sha256Hex lib
              timestamp).templateChecksum.take 8) ++ ".xlsx" ∧
      (downloadXlsxTemplate sha256Hex lib timestamp).contentType =
        "application/vnd.openxmlformats-officedocument.spreadsheetml.sheet" ∧
      (downloadXlsxTemplate sha256Hex lib timestamp).templateChecksum =
        templateChecksum sha256Hex (generate_template lib timestamp) ∧
      (downloadXlsxTemplate sha256Hex lib timestamp).templateVersion =
        (generate_template lib timestamp).versionTag :=
  fun _ _ _ => ⟨rfl, rfl, rfl, rfl⟩

/-- C10: `update_cached_fields` persists exactly the three cached
aggregate columns, each recomputed from the set's current pixels and
analysis, and leaves every other stored column of the `PixelSet` row
(id, pixels_file, description, analysis) unchanged — even when the
in-memory instance carries unsaved changes to those columns. -/
theorem update_cached_fields_frame :
    ∀ (ctx : PixelSetContext) (self stored : PixelSetRecord),
      (update_cached_fields ctx self stored).2.cached_species =
        get_species ctx ∧
      (update_cached_fields ctx self stored).2.cached_omics_unit_types =
        get_omics_unit_types ctx ∧
      (update_cached_fields ctx self stored).2.cached_omics_areas =
        get_omics_areas ctx ∧
      (update_cached_fields ctx self stored).2.id = stored.id ∧
      (update_cached_fields ctx self stored).2.pixels_file =
        stored.pixels_file ∧
      (update_cached_fields ctx self stored).2.description =
        stored.description ∧
      (update_cached_fields ctx self stored).2.analysis =
        stored.analysis :=
  fun _ _ _ => ⟨rfl, rfl, rfl, rfl, rfl, rfl, rfl⟩

/-- C1 witness: the absent-cells theorem instantiated with a set `A`
containing `geneX` and an empty set `B`. -/
theorem export_absent_set_cells_null_app :
    (wSetA ∈ [wSetA, wSetB] ∧ wSetB ∈ [wSetA, wSetB] ∧
     (∃ p ∈ filterPixels [] wSetA.pixels, p.omicsUnit = "geneX") ∧
     (∀ p ∈ filterPixels [] wSetB.pixels, p.omicsUnit ≠ "geneX")) ∧
    ∃ r ∈ (export_pixelsets [wSetA, wSetB] []).csvRows,
      r.omicsUnit = "geneX" ∧
      ∀ i, (dedupFirst [wSetA, wSetB]).get? i = some wSetB →
        r.cells.get? i = some (none, none) :=
  ⟨⟨by decide, by decide, by decide, by decide⟩,
   export_absent_set_cells_null [wSetA, wSetB] [] wSetA wSetB "geneX"
     (by decide) (by decide) (by decide) (by decide)⟩

end Pixel
